import Mathlib

/-!
# MongoDB persistence plugin: configuration translator and forwarding adapters

A shallow embedding of
`common/persistence/nosql/nosqlplugin/mongodb/mongo/{client,consistency,batch,query}.go`.

Conventions of the embedding:

* a Go `string` holding text is the list of its Unicode code points (`List Char`);
  configuration strings that are only compared with `""` are Lean `String`s;
* `int`, `int64` and `time.Duration` values are `Int`s (the routine only copies and
  compares them; its one product is a constant expression);
* `[]byte` is `List Nat`;
* a Go function that mutates its argument in place and returns an `error` becomes a
  function returning the final state together with `Option GoError`;
* `panic` is the `Except.error` branch of a result;
* calls that leave the package (standard library, driver, sibling packages) are
  fields of an environment record.
-/

set_option autoImplicit false

namespace Mongo

deriving instance DecidableEq for Except

/-! ## Text helpers used by `parseHosts` (Go standard library) -/

/-- Go `unicode.IsSpace`: the Latin-1 cases are listed one by one, the others are the
`White_Space` range table. -/
def IsSpace (r : Char) : Bool :=
  let n := r.toNat
  if n ≤ 0xFF then
    n == 0x09 || n == 0x0A || n == 0x0B || n == 0x0C || n == 0x0D || n == 0x20 ||
      n == 0x85 || n == 0xA0
  else
    n == 0x1680 || (0x2000 ≤ n && n ≤ 0x200A) || n == 0x2028 || n == 0x2029 ||
      n == 0x202F || n == 0x205F || n == 0x3000

/-- Go `strings.TrimLeftFunc`. -/
def TrimLeftFunc (s : List Char) (f : Char → Bool) : List Char :=
  s.dropWhile f

/-- Go `strings.TrimRightFunc`. -/
def TrimRightFunc (s : List Char) (f : Char → Bool) : List Char :=
  (s.reverse.dropWhile f).reverse

/-- Go `strings.TrimSpace`: `TrimFunc(s, unicode.IsSpace)`, which trims on the left and
then on the right. -/
def TrimSpace (s : List Char) : List Char :=
  TrimRightFunc (TrimLeftFunc s IsSpace) IsSpace

/-- Go `strings.Split(s, sep)` for a one-character separator: the pieces of `s`
between consecutive occurrences of `sep`; a string without `sep` is its only piece. -/
def Split : List Char → Char → List (List Char)
  | [], _ => [[]]
  | c :: cs, sep =>
    if c = sep then [] :: Split cs sep
    else
      match Split cs sep with
      | [] => [[c]]
      | p :: ps => (c :: p) :: ps

/-- Go `strings.Join(elems, sep)` for a one-character separator. -/
def Join : List (List Char) → Char → List Char
  | [], _ => []
  | [e], _ => e
  | e :: e2 :: es, sep => e ++ sep :: Join (e2 :: es) sep

/-! ## client.go: `parseHosts` -/

/-- The body of the `for ... range` loop of `parseHosts`. -/
def parseHostsStep (hosts : List (List Char)) (h : List Char) : List (List Char) :=
  let host := TrimSpace h
  if host.length > 0 then hosts ++ [host] else hosts

/-- Function `parseHosts` (client.go:179-187). -/
def parseHosts (input : List Char) : List (List Char) :=
  (Split input ',').foldl parseHostsStep []

/-- The host list as the specification words it: split at every comma, trim leading and
trailing white space of each piece, drop the pieces that are empty after trimming. -/
def parseHostsSpec (input : List Char) : List (List Char) :=
  ((input.splitOn ',').map fun piece =>
      (piece.dropWhile IsSpace).rdropWhile IsSpace).filter fun piece => !piece.isEmpty

/-! ## consistency.go and batch.go: the two enumeration translations -/

/-- The repository's `Consistency` type: an unsigned integer type whose named values are
given by `iota` (consistency.go:34-44). -/
abbrev Consistency := Nat

def Any : Consistency := 0
def One : Consistency := 1
def Two : Consistency := 2
def Three : Consistency := 3
def Quorum : Consistency := 4
def All : Consistency := 5
def LocalQuorum : Consistency := 6
def EachQuorum : Consistency := 7
def LocalOne : Consistency := 8

/-- The repository's `BatchType` type (batch.go:45-49). -/
abbrev BatchType := Nat

def LoggedBatch : BatchType := 0
def UnloggedBatch : BatchType := 1
def CounterBatch : BatchType := 2

namespace Driver

/-- The driver's consistency constants named in consistency.go; distinct names are
distinct values of the driver. -/
inductive Consistency
  | Any | One | Two | Three | Quorum | All | LocalQuorum | EachQuorum | LocalOne
  deriving DecidableEq, Repr

/-- The driver's serial consistency values. -/
inductive SerialConsistency
  | Serial | LocalSerial
  deriving DecidableEq, Repr

/-- The driver's batch type constants named in batch.go. -/
inductive BatchType
  | LoggedBatch | UnloggedBatch | CounterBatch
  deriving DecidableEq, Repr

end Driver

/-- The value given to `panic`: the format string of `fmt.Sprintf` and its one argument. -/
structure Panic where
  format : String
  arg : Nat
  deriving DecidableEq, Repr

/-- Function `mustConvertConsistency` (consistency.go:52-75). -/
def mustConvertConsistency (c : Consistency) : Except Panic Driver.Consistency :=
  if c = Any then .ok Driver.Consistency.Any
  else if c = One then .ok Driver.Consistency.One
  else if c = Two then .ok Driver.Consistency.Two
  else if c = Three then .ok Driver.Consistency.Three
  else if c = Quorum then .ok Driver.Consistency.Quorum
  else if c = All then .ok Driver.Consistency.All
  else if c = LocalQuorum then .ok Driver.Consistency.LocalQuorum
  else if c = EachQuorum then .ok Driver.Consistency.EachQuorum
  else if c = LocalOne then .ok Driver.Consistency.LocalOne
  else .error ⟨"Unknown mongo Consistency level: %v", c⟩

/-- Function `mustConvertBatchType` (batch.go:74-85). -/
def mustConvertBatchType (batchType : BatchType) : Except Panic Driver.BatchType :=
  if batchType = LoggedBatch then .ok Driver.BatchType.LoggedBatch
  else if batchType = UnloggedBatch then .ok Driver.BatchType.UnloggedBatch
  else if batchType = CounterBatch then .ok Driver.BatchType.CounterBatch
  else .error ⟨"Unknown mongo BatchType: %v", batchType⟩

/-! ## Errors -/

/-- Go `error` values met in this package. `New` is `errors.New`, `Errorf` is
`fmt.Errorf` with a format ending in `%w` and the error it wraps, `Lib` is an error
produced by a library call. A nil error is `none : Option GoError`. -/
inductive GoError
  | New (text : String)
  | Errorf (format : String) (err : GoError)
  | Lib (text : String)
  deriving DecidableEq, Repr

/-- Go `[]byte`. -/
abbrev Bytes := List Nat

/-! ## query.go: the query adapter -/

/-- The methods of the driver's `*mongo.Query` that query.go calls. `σ` is the state of
everything outside the adapter (the driver's objects, the destinations that `Scan`
writes), `Q` the type of query references, `V` the type of `interface{}` arguments and
`M` the type of `map[string]interface{}` arguments. The setters return a query
reference, as the driver's do. -/
structure QueryDriver (σ Q V M : Type) where
  Exec : Q → σ → Option GoError × σ
  Scan : Q → List V → σ → Option GoError × σ
  ScanCAS : Q → List V → σ → (Bool × Option GoError) × σ
  MapScan : Q → M → σ → Option GoError × σ
  MapScanCAS : Q → M → σ → (Bool × Option GoError) × σ
  PageSize : Q → Int → σ → Q × σ
  PageState : Q → Bytes → σ → Q × σ
  Consistency : Q → Driver.Consistency → σ → Q × σ
  WithTimestamp : Q → Int → σ → Q × σ
  Bind : Q → List V → σ → Q × σ

/-- The part of `session` that query.go uses: the error hook `handleError`, which
returns nothing and acts on the outside state only. -/
structure session (σ : Type) where
  handleError : Option GoError → σ → σ

/-- The `query` struct (query.go:35-40). -/
structure query (σ Q : Type) where
  session : session σ
  mongoQuery : Q

section QueryAdapter

variable {σ Q V M : Type}

/-- Function `newQuery` (query.go:42-50). -/
def newQuery (session : session σ) (mongoQuery : Q) : query σ Q :=
  { session := session, mongoQuery := mongoQuery }

/-- Method `query.Exec` (query.go:52-56): the deferred call runs after the driver call, with the
error being returned. -/
def query.Exec (d : QueryDriver σ Q V M) (q : query σ Q) (s : σ) : Option GoError × σ :=
  let r := d.Exec q.mongoQuery s
  let retError := r.1
  (retError, q.session.handleError retError r.2)

/-- Method `query.Scan` (query.go:58-64). -/
def query.Scan (d : QueryDriver σ Q V M) (q : query σ Q) (dest : List V) (s : σ) :
    Option GoError × σ :=
  let r := d.Scan q.mongoQuery dest s
  let retError := r.1
  (retError, q.session.handleError retError r.2)

/-- Method `query.ScanCAS` (query.go:66-72). -/
def query.ScanCAS (d : QueryDriver σ Q V M) (q : query σ Q) (dest : List V) (s : σ) :
    (Bool × Option GoError) × σ :=
  let r := d.ScanCAS q.mongoQuery dest s
  let retError := r.1.2
  ((r.1.1, retError), q.session.handleError retError r.2)

/-- Method `query.MapScan` (query.go:74-80). -/
def query.MapScan (d : QueryDriver σ Q V M) (q : query σ Q) (m : M) (s : σ) :
    Option GoError × σ :=
  let r := d.MapScan q.mongoQuery m s
  let retError := r.1
  (retError, q.session.handleError retError r.2)

/-- Method `query.MapScanCAS` (query.go:82-88). -/
def query.MapScanCAS (d : QueryDriver σ Q V M) (q : query σ Q) (dest : M) (s : σ) :
    (Bool × Option GoError) × σ :=
  let r := d.MapScanCAS q.mongoQuery dest s
  let retError := r.1.2
  ((r.1.1, retError), q.session.handleError retError r.2)

/-- Method `query.PageSize` (query.go:95-98): the driver's return value is discarded. -/
def query.PageSize (d : QueryDriver σ Q V M) (q : query σ Q) (n : Int) (s : σ) :
    query σ Q × σ :=
  let s1 := (d.PageSize q.mongoQuery n s).2
  (newQuery q.session q.mongoQuery, s1)

/-- Method `query.PageState` (query.go:100-103). -/
def query.PageState (d : QueryDriver σ Q V M) (q : query σ Q) (state : Bytes) (s : σ) :
    query σ Q × σ :=
  let s1 := (d.PageState q.mongoQuery state s).2
  (newQuery q.session q.mongoQuery, s1)

/-- Method `query.Consistency` (query.go:105-108): the argument of the driver call is evaluated
first, so a panic of `mustConvertConsistency` leaves the driver untouched. -/
def query.Consistency (d : QueryDriver σ Q V M) (q : query σ Q) (c : Consistency) (s : σ) :
    Except Panic (query σ Q × σ) :=
  match mustConvertConsistency c with
  | .error p => .error p
  | .ok dc =>
    let s1 := (d.Consistency q.mongoQuery dc s).2
    .ok (newQuery q.session q.mongoQuery, s1)

/-- Method `query.WithTimestamp` (query.go:110-113). -/
def query.WithTimestamp (d : QueryDriver σ Q V M) (q : query σ Q) (timestamp : Int) (s : σ) :
    query σ Q × σ :=
  let s1 := (d.WithTimestamp q.mongoQuery timestamp s).2
  (newQuery q.session q.mongoQuery, s1)

/-- Method `query.Bind` (query.go:123-126). -/
def query.Bind (d : QueryDriver σ Q V M) (q : query σ Q) (v : List V) (s : σ) :
    query σ Q × σ :=
  let s1 := (d.Bind q.mongoQuery v s).2
  (newQuery q.session q.mongoQuery, s1)

/-- One call of a chaining method of the adapter, with its argument. -/
inductive SetterCall (V : Type)
  | PageSize (n : Int)
  | PageState (state : Bytes)
  | Consistency (c : Consistency)
  | WithTimestamp (timestamp : Int)
  | Bind (v : List V)

/-- The adapter method that a `SetterCall` names, applied to the wrapper `q`. -/
def query.call (d : QueryDriver σ Q V M) (q : query σ Q) (c : SetterCall V) (s : σ) :
    Except Panic (query σ Q × σ) :=
  match c with
  | .PageSize n => .ok (q.PageSize d n s)
  | .PageState state => .ok (q.PageState d state s)
  | .Consistency c => q.Consistency d c s
  | .WithTimestamp t => .ok (q.WithTimestamp d t s)
  | .Bind v => .ok (q.Bind d v s)

/-- A chain `q.m1(a1).m2(a2)...` of adapter calls: every call is made on the wrapper the
previous one returned. -/
def query.chain (d : QueryDriver σ Q V M) (q : query σ Q) :
    List (SetterCall V) → σ → Except Panic (query σ Q × σ)
  | [], s => .ok (q, s)
  | c :: cs, s =>
    match q.call d c s with
    | .error p => .error p
    | .ok (q1, s1) => query.chain d q1 cs s1

/-- The setter of the driver that corresponds to a `SetterCall`, called directly on the
driver query `mq` (the consistency level translated by `mustConvertConsistency`). -/
def driverCall (d : QueryDriver σ Q V M) (mq : Q) (c : SetterCall V) (s : σ) :
    Except Panic σ :=
  match c with
  | .PageSize n => .ok (d.PageSize mq n s).2
  | .PageState state => .ok (d.PageState mq state s).2
  | .Consistency c => (mustConvertConsistency c).map fun dc => (d.Consistency mq dc s).2
  | .WithTimestamp t => .ok (d.WithTimestamp mq t s).2
  | .Bind v => .ok (d.Bind mq v s).2

/-- The same setters called one after the other on the driver query `mq` directly. -/
def driverChain (d : QueryDriver σ Q V M) (mq : Q) :
    List (SetterCall V) → σ → Except Panic σ
  | [], s => .ok s
  | c :: cs, s =>
    match driverCall d mq c s with
    | .error p => .error p
    | .ok s1 => driverChain d mq cs s1

end QueryAdapter

/-! ## client.go: `ConfigureMongoDBCluster` -/

/-- The type `auth.TLS` of the configuration (fields read by client.go). -/
structure TLS where
  Enabled : Bool := false
  CertFile : String := ""
  KeyFile : String := ""
  CaFile : String := ""
  CertData : String := ""
  KeyData : String := ""
  CaData : String := ""
  EnableHostVerification : Bool := false
  ServerName : String := ""
  deriving DecidableEq, Repr

/-- The value behind `cfg.Consistency`; only its two getters are used, and they are
calls into the configuration package. -/
structure StoreConsistency where
  token : Nat := 0
  deriving DecidableEq, Repr

/-- The type `config.MongoDB` (fields read by client.go). `TLS` is a pointer, `none` is
nil. Durations are in nanoseconds. -/
structure MongoDB where
  Hosts : List Char := []
  Port : Int := 0
  User : String := ""
  Password : String := ""
  Keyspace : String := ""
  Datacenter : String := ""
  MaxConns : Int := 0
  ConnectTimeout : Int := 0
  Consistency : StoreConsistency := {}
  DisableInitialHostLookup : Bool := false
  TLS : Option TLS := none
  deriving DecidableEq, Repr

/-- A `tls.Certificate`, a value of the standard library. -/
structure Certificate where
  raw : Bytes
  deriving DecidableEq, Repr

/-- An `x509.CertPool`, a value of the standard library. -/
structure CertPool where
  raw : List Bytes
  deriving DecidableEq, Repr

/-- A `tls.Config`: the two fields client.go assigns (`Certificates`, `RootCAs`), and two
that its constructor `auth.NewTLSConfigForServer` is given. -/
structure TLSConfig where
  ServerName : String
  InsecureSkipVerify : Bool
  Certificates : List Certificate
  RootCAs : Option CertPool
  deriving DecidableEq, Repr

/-- The driver's `SslOptions`; `Config` is the embedded `*tls.Config`. -/
structure SslOptions where
  Config : TLSConfig
  CaPath : String
  EnableHostVerification : Bool
  deriving DecidableEq, Repr

/-- Values of the driver's `Authenticator` interface. -/
inductive Authenticator
  | PasswordAuthenticator (Username Password : String)
  | other (token : Nat)
  deriving DecidableEq, Repr

/-- Values of the driver's `HostFilter` interface. -/
inductive HostFilter
  | DataCentreHostFilter (dataCentre : String)
  | other (token : Nat)
  deriving DecidableEq, Repr

/-- Values of the driver's `ReconnectionPolicy` interface. -/
inductive ReconnectionPolicy
  | ExponentialReconnectionPolicy (MaxRetries : Int) (InitialInterval MaxInterval : Int)
  | other (token : Nat)
  deriving DecidableEq, Repr

/-- Values of the driver's `HostSelectionPolicy` interface. -/
inductive HostSelectionPolicy
  | RoundRobinHostPolicy
  | TokenAwareHostPolicy (fallback : HostSelectionPolicy)
  | other (token : Nat)
  deriving DecidableEq, Repr

/-- The driver's `PoolConfig`. -/
structure PoolConfig where
  HostSelectionPolicy : Option HostSelectionPolicy := none
  deriving DecidableEq, Repr

/-- The driver's `ClusterConfig`: the fields client.go assigns, and the host list it is
created with. Interface and pointer fields are `Option`s, `none` being nil. -/
structure ClusterConfig where
  Hosts : List (List Char) := []
  ProtoVersion : Int := 0
  Port : Int := 0
  Authenticator : Option Authenticator := none
  Keyspace : String := ""
  HostFilter : Option HostFilter := none
  SslOpts : Option SslOptions := none
  NumConns : Int := 0
  Timeout : Int := 0
  ConnectTimeout : Int := 0
  Consistency : Driver.Consistency := Driver.Consistency.Any
  SerialConsistency : Driver.SerialConsistency := Driver.SerialConsistency.Serial
  DisableInitialHostLookup : Bool := false
  ReconnectionPolicy : Option ReconnectionPolicy := none
  PoolConfig : PoolConfig := {}
  deriving DecidableEq, Repr

/-- The calls of `ConfigureMongoDBCluster` that leave the package, and the constant
`debug.TimeoutMultiplier`. -/
structure Env where
  /-- Call `os.ReadFile`. -/
  ReadFile : String → Except GoError Bytes
  /-- Call `base64.StdEncoding.DecodeString`. -/
  DecodeString : String → Except GoError Bytes
  /-- Call `tls.X509KeyPair`. -/
  X509KeyPair : Bytes → Bytes → Except GoError Certificate
  /-- Call `x509.NewCertPool`. -/
  NewCertPool : CertPool
  /-- Call `(*x509.CertPool).AppendCertsFromPEM`: the pool afterwards, and the result. -/
  AppendCertsFromPEM : CertPool → Bytes → CertPool × Bool
  /-- Call `auth.NewTLSConfigForServer`. -/
  NewTLSConfigForServer : String → Bool → TLSConfig
  /-- Call `GetConsistency` of the configuration. -/
  GetConsistency : StoreConsistency → Driver.Consistency
  /-- Call `GetSerialConsistency` of the configuration. -/
  GetSerialConsistency : StoreConsistency → Driver.SerialConsistency
  /-- Constant `debug.TimeoutMultiplier`. -/
  TimeoutMultiplier : Int

/-- Constant `time.Second`, in nanoseconds. -/
def Second : Int := 1000000000

/-- The error of client.go:84. -/
def errCertDataOrFile : GoError :=
  .New "only one of certData or certFile properties should be specified"

/-- The error of client.go:88. -/
def errKeyDataOrFile : GoError :=
  .New "only one of keyData or keyFile properties should be specified"

/-- The error of client.go:92. -/
def errCaDataOrFile : GoError :=
  .New "only one of caData or caFile properties should be specified"

/-- Lines 66-81 of `ConfigureMongoDBCluster`. -/
def configureBasics (cfg : MongoDB) (cluster : ClusterConfig) : ClusterConfig :=
  let cluster := { cluster with ProtoVersion := 4 }
  let cluster := if cfg.Port > 0 then { cluster with Port := cfg.Port } else cluster
  let cluster :=
    if cfg.User ≠ "" ∧ cfg.Password ≠ "" then
      { cluster with Authenticator := some (.PasswordAuthenticator cfg.User cfg.Password) }
    else cluster
  let cluster :=
    if cfg.Keyspace ≠ "" then { cluster with Keyspace := cfg.Keyspace } else cluster
  if cfg.Datacenter ≠ "" then
    { cluster with HostFilter := some (.DataCentreHostFilter cfg.Datacenter) }
  else cluster

/-- Lines 105-115: the value of `certBytes`, or the error returned. -/
def loadCertBytes (env : Env) (tls : TLS) : Except GoError Bytes :=
  if tls.CertFile ≠ "" then
    match env.ReadFile tls.CertFile with
    | .error err => .error (.Errorf "error reading client certificate file: %w" err)
    | .ok certBytes => .ok certBytes
  else if tls.CertData ≠ "" then
    match env.DecodeString tls.CertData with
    | .error err => .error (.Errorf "client certificate could not be decoded: %w" err)
    | .ok certBytes => .ok certBytes
  else .ok []

/-- Lines 117-127: the value of `keyBytes`, or the error returned. -/
def loadKeyBytes (env : Env) (tls : TLS) : Except GoError Bytes :=
  if tls.KeyFile ≠ "" then
    match env.ReadFile tls.KeyFile with
    | .error err =>
      .error (.Errorf "error reading client certificate private key file: %w" err)
    | .ok keyBytes => .ok keyBytes
  else if tls.KeyData ≠ "" then
    match env.DecodeString tls.KeyData with
    | .error err =>
      .error (.Errorf "client certificate private key could not be decoded: %w" err)
    | .ok keyBytes => .ok keyBytes
  else .ok []

/-- Lines 129-136: the object behind `cluster.SslOpts` afterwards, and the error
returned if any. -/
def installKeyPair (env : Env) (certBytes keyBytes : Bytes) (opts : SslOptions) :
    SslOptions × Option GoError :=
  if certBytes.length > 0 then
    match env.X509KeyPair certBytes keyBytes with
    | .error err => (opts, some (.Errorf "unable to generate x509 key pair: %w" err))
    | .ok clientCert =>
      ({ opts with Config := { opts.Config with Certificates := [clientCert] } }, none)
  else (opts, none)

/-- Lines 138-147: the object behind `cluster.SslOpts` afterwards, and the error
returned if any. -/
def installRootCAs (env : Env) (tls : TLS) (opts : SslOptions) :
    SslOptions × Option GoError :=
  if tls.CaData ≠ "" then
    let opts := { opts with Config := { opts.Config with RootCAs := some env.NewCertPool } }
    match env.DecodeString tls.CaData with
    | .error err => (opts, some (.Errorf "caData could not be decoded: %w" err))
    | .ok pem =>
      let r := env.AppendCertsFromPEM env.NewCertPool pem
      let opts := { opts with Config := { opts.Config with RootCAs := some r.1 } }
      if !r.2 then (opts, some (.New "failed to load decoded CA Cert as PEM"))
      else (opts, none)
  else (opts, none)

/-- Lines 83-147, the body of `if cfg.TLS != nil && cfg.TLS.Enabled`: the cluster
afterwards, and the error returned if any (`none` when control reaches line 150). -/
def configureTLS (env : Env) (tls : TLS) (cluster : ClusterConfig) :
    ClusterConfig × Option GoError :=
  if tls.CertData ≠ "" ∧ tls.CertFile ≠ "" then (cluster, some errCertDataOrFile)
  else if tls.KeyData ≠ "" ∧ tls.KeyFile ≠ "" then (cluster, some errKeyDataOrFile)
  else if tls.CaData ≠ "" ∧ tls.CaFile ≠ "" then (cluster, some errCaDataOrFile)
  else
    let opts : SslOptions :=
      { CaPath := tls.CaFile
        EnableHostVerification := tls.EnableHostVerification
        Config := env.NewTLSConfigForServer tls.ServerName tls.EnableHostVerification }
    match loadCertBytes env tls with
    | .error err => ({ cluster with SslOpts := some opts }, some err)
    | .ok certBytes =>
      match loadKeyBytes env tls with
      | .error err => ({ cluster with SslOpts := some opts }, some err)
      | .ok keyBytes =>
        match installKeyPair env certBytes keyBytes opts with
        | (opts, some err) => ({ cluster with SslOpts := some opts }, some err)
        | (opts, none) =>
          let r := installRootCAs env tls opts
          ({ cluster with SslOpts := some r.1 }, r.2)

/-- Lines 150-173 of `ConfigureMongoDBCluster`. -/
def configureRest (env : Env) (cfg : MongoDB) (cluster : ClusterConfig) : ClusterConfig :=
  let cluster := if cfg.MaxConns > 0 then { cluster with NumConns := cfg.MaxConns } else cluster
  let cluster :=
    if cfg.ConnectTimeout > 0 then
      { cluster with Timeout := cfg.ConnectTimeout, ConnectTimeout := cfg.ConnectTimeout }
    else
      { cluster with
        Timeout := 10 * Second * env.TimeoutMultiplier
        ConnectTimeout := 10 * Second * env.TimeoutMultiplier }
  { cluster with
    ProtoVersion := 4
    Consistency := env.GetConsistency cfg.Consistency
    SerialConsistency := env.GetSerialConsistency cfg.Consistency
    DisableInitialHostLookup := cfg.DisableInitialHostLookup
    ReconnectionPolicy := some (.ExponentialReconnectionPolicy 30 Second (10 * Second))
    PoolConfig :=
      { cluster.PoolConfig with
        HostSelectionPolicy := some (.TokenAwareHostPolicy .RoundRobinHostPolicy) } }

/-- Function `ConfigureMongoDBCluster` (client.go:65-176): the cluster object after the call, and
the error returned (`none` is nil). -/
def ConfigureMongoDBCluster (env : Env) (cfg : MongoDB) (cluster : ClusterConfig) :
    ClusterConfig × Option GoError :=
  let cluster := configureBasics cfg cluster
  let r :=
    match cfg.TLS with
    | some tls => if tls.Enabled then configureTLS env tls cluster else (cluster, none)
    | none => (cluster, none)
  match r.2 with
  | some err => (r.1, some err)
  | none => (configureRest env cfg r.1, none)

/-! ## A concrete environment for examples -/

/-- The value of a character in the standard base64 alphabet. -/
def base64Value (c : Char) : Option Nat :=
  let n := c.toNat
  if 65 ≤ n ∧ n ≤ 90 then some (n - 65)
  else if 97 ≤ n ∧ n ≤ 122 then some (n - 71)
  else if 48 ≤ n ∧ n ≤ 57 then some (n + 4)
  else if n = 43 then some 62
  else if n = 47 then some 63
  else none

/-- Decoding of padded standard base64, four characters at a time; `none` when the
input is not well formed. -/
def base64Quanta : List Char → Option Bytes
  | a :: b :: c :: d :: rest =>
    match base64Value a, base64Value b with
    | some x, some y =>
      if rest = [] ∧ c = '=' ∧ d = '=' then some [x * 4 + y / 16]
      else
        match base64Value c with
        | none => none
        | some z =>
          if rest = [] ∧ d = '=' then some [x * 4 + y / 16, y % 16 * 16 + z / 4]
          else
            match base64Value d with
            | none => none
            | some w =>
              (base64Quanta rest).map fun bs =>
                [x * 4 + y / 16, y % 16 * 16 + z / 4, z % 4 * 64 + w] ++ bs
    | _, _ => none
  | [] => some []
  | _ => none

/-- A decoder of padded standard base64 that skips line breaks. -/
def base64Decode (s : String) : Except GoError Bytes :=
  match base64Quanta (s.toList.filter fun c => c ≠ '\n' ∧ c ≠ '\r') with
  | some bs => .ok bs
  | none => .error (.Lib "illegal base64 data")

/-- An environment with an empty file system, the base64 decoder above, a key-pair
constructor that accepts every non-empty key, and a multiplier of one. -/
def exampleEnv : Env where
  ReadFile := fun _ => .error (.Lib "no such file or directory")
  DecodeString := base64Decode
  X509KeyPair := fun certPEMBlock keyPEMBlock =>
    if keyPEMBlock = [] then .error (.Lib "failed to find any PEM data in key input")
    else .ok ⟨certPEMBlock ++ keyPEMBlock⟩
  NewCertPool := ⟨[]⟩
  AppendCertsFromPEM := fun pool pem => if pem = [] then (pool, false) else (⟨pool.raw ++ [pem]⟩, true)
  NewTLSConfigForServer := fun serverName enableHostVerification =>
    { ServerName := serverName, InsecureSkipVerify := !enableHostVerification,
      Certificates := [], RootCAs := none }
  GetConsistency := fun _ => Driver.Consistency.LocalQuorum
  GetSerialConsistency := fun _ => Driver.SerialConsistency.LocalSerial
  TimeoutMultiplier := 1

/-- An error returned by one of the three checks of client.go:83-93. -/
def IsMutualExclusivityError (err : Option GoError) : Prop :=
  err = some errCertDataOrFile ∨ err = some errKeyDataOrFile ∨ err = some errCaDataOrFile

instance (err : Option GoError) : Decidable (IsMutualExclusivityError err) := by
  unfold IsMutualExclusivityError
  infer_instance

/-- The error hook of `h` next to a log that records every invocation of the hook with
its argument. -/
def session.logged {σ : Type} (h : session σ) : session (σ × List (Option GoError)) where
  handleError := fun err st => (h.handleError err st.1, st.2 ++ [err])

/-- The driver `d` next to a log that no driver method touches. -/
def QueryDriver.logged {σ Q V M : Type} (d : QueryDriver σ Q V M) :
    QueryDriver (σ × List (Option GoError)) Q V M where
  Exec := fun mq st => ((d.Exec mq st.1).1, ((d.Exec mq st.1).2, st.2))
  Scan := fun mq dest st => ((d.Scan mq dest st.1).1, ((d.Scan mq dest st.1).2, st.2))
  ScanCAS := fun mq dest st =>
    ((d.ScanCAS mq dest st.1).1, ((d.ScanCAS mq dest st.1).2, st.2))
  MapScan := fun mq m st => ((d.MapScan mq m st.1).1, ((d.MapScan mq m st.1).2, st.2))
  MapScanCAS := fun mq m st =>
    ((d.MapScanCAS mq m st.1).1, ((d.MapScanCAS mq m st.1).2, st.2))
  PageSize := fun mq n st => ((d.PageSize mq n st.1).1, ((d.PageSize mq n st.1).2, st.2))
  PageState := fun mq b st => ((d.PageState mq b st.1).1, ((d.PageState mq b st.1).2, st.2))
  Consistency := fun mq c st =>
    ((d.Consistency mq c st.1).1, ((d.Consistency mq c st.1).2, st.2))
  WithTimestamp := fun mq t st =>
    ((d.WithTimestamp mq t st.1).1, ((d.WithTimestamp mq t st.1).2, st.2))
  Bind := fun mq v st => ((d.Bind mq v st.1).1, ((d.Bind mq v st.1).2, st.2))

/-- The object `cluster.SslOpts` is set to at client.go:95-99. -/
def newSslOptions (env : Env) (tls : TLS) : SslOptions :=
  { CaPath := tls.CaFile
    EnableHostVerification := tls.EnableHostVerification
    Config := env.NewTLSConfigForServer tls.ServerName tls.EnableHostVerification }

/-- TLS switched off, certificate given both inline and as a file. -/
def cfgTLSOffBothCertForms : MongoDB :=
  { TLS := some { Enabled := false, CertData := "QUI=", CertFile := "/etc/temporal/client.pem" } }

/-- TLS switched on, private key given both inline and as a file. -/
def cfgBothKeyForms : MongoDB :=
  { TLS := some { Enabled := true, KeyData := "QQ==", KeyFile := "/etc/temporal/client.key" } }

/-- TLS switched on, certificate authority given both inline and as a file. -/
def cfgBothCaForms : MongoDB :=
  { TLS := some { Enabled := true, CaData := "QQ==", CaFile := "/etc/temporal/ca.pem" } }

/-- TLS switched on, inline certificate that is not base64, inline key, and the
certificate authority given both inline and as a file. -/
def cfgBadCertBothCaForms : MongoDB :=
  { TLS := some
      { Enabled := true, CertData := "!", KeyData := "QQ==", CaData := "QQ=="
        CaFile := "/etc/temporal/ca.pem" } }

/-- TLS switched on, inline certificate and inline key that are both not base64. -/
def cfgBadCertBadKey : MongoDB :=
  { TLS := some { Enabled := true, CertData := "!", KeyData := "!" } }

/-- TLS switched on, inline certificate that is not base64, inline key. -/
def cfgBadCert : MongoDB :=
  { TLS := some { Enabled := true, CertData := "!", KeyData := "QQ==" } }

/-- TLS switched on, inline certificate and key, no connect timeout. -/
def cfgInlineKeyPair : MongoDB :=
  { TLS := some { Enabled := true, CertData := "QUI=", KeyData := "QQ==" } }

/-- The position of a driver consistency constant in the list of consistency.go. -/
def consistencyIndex : Driver.Consistency → Nat
  | .Any => 0 | .One => 1 | .Two => 2 | .Three => 3 | .Quorum => 4 | .All => 5
  | .LocalQuorum => 6 | .EachQuorum => 7 | .LocalOne => 8

/-- The position of a driver batch type constant in the list of batch.go. -/
def batchTypeIndex : Driver.BatchType → Nat
  | .LoggedBatch => 0 | .UnloggedBatch => 1 | .CounterBatch => 2

/-! ## Lemmas on the text helpers -/

theorem Split_cons (c : Char) (cs : List Char) (sep : Char) :
    Split (c :: cs) sep =
      if c = sep then [] :: Split cs sep
      else
        match Split cs sep with
        | [] => [[c]]
        | p :: ps => (c :: p) :: ps := by
  rw [Split]

theorem Split_ne_nil (s : List Char) (sep : Char) : Split s sep ≠ [] := by
  induction s with
  | nil => simp [Split]
  | cons c cs ih =>
    unfold Split
    split_ifs
    · simp
    · cases h : Split cs sep with
      | nil => exact absurd h ih
      | cons p ps => simp

theorem Split_eq_splitOn (s : List Char) (sep : Char) : Split s sep = s.splitOn sep := by
  induction s with
  | nil => simp [Split]
  | cons c cs ih =>
    unfold Split
    rw [List.splitOn, List.splitOnP_cons, ← List.splitOn, ← ih]
    by_cases h : c = sep
    · simp [h]
    · have hb : (c == sep) = false := by simpa using h
      rw [if_neg h, hb]
      cases hs : Split cs sep with
      | nil => exact absurd hs (Split_ne_nil cs sep)
      | cons p ps => simp

theorem not_mem_of_mem_Split (s : List Char) (sep : Char) :
    ∀ p ∈ Split s sep, sep ∉ p := by
  induction s with
  | nil => simp [Split]
  | cons c cs ih =>
    unfold Split
    split_ifs with h
    · intro p hp
      rcases List.mem_cons.1 hp with rfl | hp
      · simp
      · exact ih p hp
    · cases hs : Split cs sep with
      | nil => exact absurd hs (Split_ne_nil cs sep)
      | cons q qs =>
        rw [hs] at ih
        intro p hp
        rcases List.mem_cons.1 hp with rfl | hp
        · intro hmem
          rcases List.mem_cons.1 hmem with heq | hmem
          · exact h heq.symm
          · exact ih q (List.mem_cons_self _ _) hmem
        · exact ih p (List.mem_cons_of_mem _ hp)

theorem Split_of_not_mem (p : List Char) (sep : Char) (h : sep ∉ p) : Split p sep = [p] := by
  induction p with
  | nil => simp [Split]
  | cons c cs ih =>
    have hc : c ≠ sep := fun e => h (e ▸ List.mem_cons_self _ _)
    have hcs : sep ∉ cs := fun e => h (List.mem_cons_of_mem _ e)
    rw [Split_cons, if_neg hc, ih hcs]

theorem Split_append_sep (p rest : List Char) (sep : Char) (h : sep ∉ p) :
    Split (p ++ sep :: rest) sep = p :: Split rest sep := by
  induction p with
  | nil => simp [Split]
  | cons c cs ih =>
    have hc : c ≠ sep := fun e => h (e ▸ List.mem_cons_self _ _)
    have hcs : sep ∉ cs := fun e => h (List.mem_cons_of_mem _ e)
    rw [List.cons_append, Split_cons, if_neg hc, ih hcs]

theorem Split_Join (l : List (List Char)) (sep : Char) (hl : l ≠ [])
    (h : ∀ p ∈ l, sep ∉ p) : Split (Join l sep) sep = l := by
  induction l with
  | nil => exact absurd rfl hl
  | cons p ps ih =>
    cases ps with
    | nil => simpa [Join] using Split_of_not_mem p sep (h p (List.mem_cons_self _ _))
    | cons q qs =>
      have hp : sep ∉ p := h p (List.mem_cons_self _ _)
      have ht : Split (Join (q :: qs) sep) sep = q :: qs :=
        ih (List.cons_ne_nil _ _) fun r hr => h r (List.mem_cons_of_mem _ hr)
      show Split (p ++ sep :: Join (q :: qs) sep) sep = p :: q :: qs
      rw [Split_append_sep p _ sep hp, ht]

theorem TrimSpace_eq (s : List Char) :
    TrimSpace s = (s.dropWhile IsSpace).rdropWhile IsSpace := rfl

theorem TrimSpace_sublist (s : List Char) : (TrimSpace s).Sublist s :=
  ((List.rdropWhile_prefix IsSpace (s.dropWhile IsSpace)).sublist).trans
    (List.dropWhile_suffix IsSpace).sublist

theorem TrimSpace_head (s : List Char) (c : Char) (h : (TrimSpace s).head? = some c) :
    IsSpace c = false := by
  rw [TrimSpace_eq] at h
  obtain ⟨t, ht⟩ := List.rdropWhile_prefix IsSpace (s.dropWhile IsSpace)
  have hd : (s.dropWhile IsSpace).head? = some c := by
    rw [← ht]
    cases hr : List.rdropWhile IsSpace (List.dropWhile IsSpace s) with
    | nil => rw [hr] at h; simp at h
    | cons a as => rw [hr] at h; simpa using h
  have := List.head?_dropWhile_not IsSpace s
  rw [hd] at this
  simpa using this

theorem TrimSpace_getLast (s : List Char) (c : Char) (h : (TrimSpace s).getLast? = some c) :
    IsSpace c = false := by
  rw [TrimSpace_eq] at h
  have hne : List.rdropWhile IsSpace (List.dropWhile IsSpace s) ≠ [] := by
    intro e; rw [e] at h; simp at h
  have := List.rdropWhile_last_not IsSpace (s.dropWhile IsSpace) hne
  rw [List.getLast?_eq_getLast _ hne] at h
  have hc : (List.rdropWhile IsSpace (List.dropWhile IsSpace s)).getLast hne = c :=
    Option.some.inj h
  rw [hc] at this
  simpa using this

theorem TrimSpace_of_trimmed (s : List Char)
    (hh : ∀ c, s.head? = some c → IsSpace c = false)
    (hl : ∀ c, s.getLast? = some c → IsSpace c = false) : TrimSpace s = s := by
  have h1 : s.dropWhile IsSpace = s := by
    cases s with
    | nil => rfl
    | cons a as =>
      have := hh a rfl
      simp [List.dropWhile, this]
  rw [TrimSpace_eq, h1, List.rdropWhile_eq_self_iff]
  intro hne
  have := hl (s.getLast hne) (List.getLast?_eq_getLast _ hne)
  simp [this]

theorem foldl_parseHostsStep (l acc : List (List Char)) :
    l.foldl parseHostsStep acc =
      acc ++ (l.map TrimSpace).filter fun piece => !piece.isEmpty := by
  induction l generalizing acc with
  | nil => simp
  | cons h hs ih =>
    rw [List.foldl_cons, ih]
    cases ht : TrimSpace h with
    | nil => simp [parseHostsStep, ht]
    | cons a as => simp [parseHostsStep, ht]

theorem parseHosts_eq (input : List Char) :
    parseHosts input =
      ((Split input ',').map TrimSpace).filter fun piece => !piece.isEmpty := by
  rw [parseHosts, foldl_parseHostsStep, List.nil_append]

theorem parseHosts_mem (input h : List Char) (hm : h ∈ parseHosts input) :
    h ≠ [] ∧ ',' ∉ h ∧ (∀ c, h.head? = some c → IsSpace c = false) ∧
      (∀ c, h.getLast? = some c → IsSpace c = false) := by
  rw [parseHosts_eq, List.mem_filter, List.mem_map] at hm
  obtain ⟨⟨p, hp, rfl⟩, hne⟩ := hm
  refine ⟨?_, ?_, TrimSpace_head p, TrimSpace_getLast p⟩
  · intro e; rw [e] at hne; simp at hne
  · intro hc
    exact not_mem_of_mem_Split input ',' p hp ((TrimSpace_sublist p).subset hc)

/-! ## `parseHosts` -/

/-- C3: for every input, `parseHosts` returns the pieces between the commas, each trimmed
of leading and trailing white space, without the pieces that are empty after trimming and
in their original order; on `"a, b ,c"` that is `["a","b","c"]`; and every host returned
is non-empty, has no comma, and neither starts nor ends with white space. -/
theorem parseHosts_split_trim_drop (s : List Char) :
    parseHosts s = parseHostsSpec s ∧
      parseHosts "a, b ,c".toList = ["a".toList, "b".toList, "c".toList] ∧
      ∀ h ∈ parseHosts s,
        h ≠ [] ∧ ',' ∉ h ∧ (∀ c, h.head? = some c → IsSpace c = false) ∧
          (∀ c, h.getLast? = some c → IsSpace c = false) := by
  refine ⟨?_, by decide, parseHosts_mem s⟩
  rw [parseHosts_eq, parseHostsSpec, Split_eq_splitOn]
  rfl

theorem parseHosts_split_trim_drop_witness :
    "b".toList ≠ [] ∧ ',' ∉ "b".toList ∧
      (∀ c, "b".toList.head? = some c → IsSpace c = false) ∧
      (∀ c, "b".toList.getLast? = some c → IsSpace c = false) :=
  (parseHosts_split_trim_drop "a, b ,c".toList).2.2 "b".toList (by decide)

/-- C10: parsing the comma-joined result of `parseHosts` gives that result again, for
every input (an empty result joins to the empty string, which parses to no host). -/
theorem parseHosts_Join_parseHosts (s : List Char) :
    parseHosts (Join (parseHosts s) ',') = parseHosts s := by
  cases hl : parseHosts s with
  | nil => decide
  | cons p ps =>
    have hmem : ∀ h ∈ p :: ps,
        h ≠ [] ∧ ',' ∉ h ∧ (∀ c, h.head? = some c → IsSpace c = false) ∧
          (∀ c, h.getLast? = some c → IsSpace c = false) := by
      intro h hh
      exact parseHosts_mem s h (hl ▸ hh)
    rw [parseHosts_eq, Split_Join (p :: ps) ',' (List.cons_ne_nil _ _)
      fun h hh => (hmem h hh).2.1]
    have hmap : (p :: ps).map TrimSpace = p :: ps := by
      conv_rhs => rw [← List.map_id (p :: ps)]
      refine List.map_congr_left fun h hh => ?_
      exact TrimSpace_of_trimmed h (hmem h hh).2.2.1 (hmem h hh).2.2.2
    rw [hmap, List.filter_eq_self]
    intro h hh
    have := (hmem h hh).1
    cases h with
    | nil => exact absurd rfl this
    | cons a as => rfl

/-! ## The enumeration translations -/

theorem mustConvertConsistency_ok (c : Consistency) (v : Driver.Consistency)
    (h : mustConvertConsistency c = .ok v) : c = consistencyIndex v := by
  by_cases hc : c ≤ 8
  · interval_cases c <;> (cases h; rfl)
  · have h0 : c ≠ Any := by intro e; apply hc; rw [e]; decide
    have h1 : c ≠ One := by intro e; apply hc; rw [e]; decide
    have h2 : c ≠ Two := by intro e; apply hc; rw [e]; decide
    have h3 : c ≠ Three := by intro e; apply hc; rw [e]; decide
    have h4 : c ≠ Quorum := by intro e; apply hc; rw [e]; decide
    have h5 : c ≠ All := by intro e; apply hc; rw [e]; decide
    have h6 : c ≠ LocalQuorum := by intro e; apply hc; rw [e]; decide
    have h7 : c ≠ EachQuorum := by intro e; apply hc; rw [e]; decide
    have h8 : c ≠ LocalOne := by intro e; apply hc; rw [e]; decide
    simp only [mustConvertConsistency, if_neg h0, if_neg h1, if_neg h2, if_neg h3, if_neg h4,
      if_neg h5, if_neg h6, if_neg h7, if_neg h8] at h
    cases h

theorem mustConvertBatchType_ok (t : BatchType) (v : Driver.BatchType)
    (h : mustConvertBatchType t = .ok v) : t = batchTypeIndex v := by
  by_cases ht : t ≤ 2
  · interval_cases t <;> (cases h; rfl)
  · have h0 : t ≠ LoggedBatch := by intro e; apply ht; rw [e]; decide
    have h1 : t ≠ UnloggedBatch := by intro e; apply ht; rw [e]; decide
    have h2 : t ≠ CounterBatch := by intro e; apply ht; rw [e]; decide
    simp only [mustConvertBatchType, if_neg h0, if_neg h1, if_neg h2] at h
    cases h

/-- C4: `mustConvertConsistency` sends each of the nine named consistency values, and
`mustConvertBatchType` each of the three named batch types, to the driver value of the
same name; two values that are translated to the same driver value are equal; and on
every value that is not one of the named ones the function panics. -/
theorem mustConvert_bijection_or_panic :
    (mustConvertConsistency Any = .ok Driver.Consistency.Any ∧
      mustConvertConsistency One = .ok Driver.Consistency.One ∧
      mustConvertConsistency Two = .ok Driver.Consistency.Two ∧
      mustConvertConsistency Three = .ok Driver.Consistency.Three ∧
      mustConvertConsistency Quorum = .ok Driver.Consistency.Quorum ∧
      mustConvertConsistency All = .ok Driver.Consistency.All ∧
      mustConvertConsistency LocalQuorum = .ok Driver.Consistency.LocalQuorum ∧
      mustConvertConsistency EachQuorum = .ok Driver.Consistency.EachQuorum ∧
      mustConvertConsistency LocalOne = .ok Driver.Consistency.LocalOne) ∧
    (mustConvertBatchType LoggedBatch = .ok Driver.BatchType.LoggedBatch ∧
      mustConvertBatchType UnloggedBatch = .ok Driver.BatchType.UnloggedBatch ∧
      mustConvertBatchType CounterBatch = .ok Driver.BatchType.CounterBatch) ∧
    (∀ (a b : Consistency) (v : Driver.Consistency),
      mustConvertConsistency a = .ok v → mustConvertConsistency b = .ok v → a = b) ∧
    (∀ (a b : BatchType) (v : Driver.BatchType),
      mustConvertBatchType a = .ok v → mustConvertBatchType b = .ok v → a = b) ∧
    (∀ c : Consistency,
      c ∉ [Any, One, Two, Three, Quorum, All, LocalQuorum, EachQuorum, LocalOne] →
        mustConvertConsistency c = .error ⟨"Unknown mongo Consistency level: %v", c⟩) ∧
    (∀ t : BatchType, t ∉ [LoggedBatch, UnloggedBatch, CounterBatch] →
        mustConvertBatchType t = .error ⟨"Unknown mongo BatchType: %v", t⟩) := by
  refine ⟨by decide, by decide, ?_, ?_, ?_, ?_⟩
  · intro a b v ha hb
    rw [mustConvertConsistency_ok a v ha, mustConvertConsistency_ok b v hb]
  · intro a b v ha hb
    rw [mustConvertBatchType_ok a v ha, mustConvertBatchType_ok b v hb]
  · intro c hc
    simp only [List.mem_cons, List.mem_singleton, List.not_mem_nil, or_false, not_or] at hc
    obtain ⟨h0, h1, h2, h3, h4, h5, h6, h7, h8⟩ := hc
    simp only [mustConvertConsistency, if_neg h0, if_neg h1, if_neg h2, if_neg h3, if_neg h4,
      if_neg h5, if_neg h6, if_neg h7, if_neg h8]
  · intro t ht
    simp only [List.mem_cons, List.mem_singleton, List.not_mem_nil, or_false, not_or] at ht
    obtain ⟨h0, h1, h2⟩ := ht
    simp only [mustConvertBatchType, if_neg h0, if_neg h1, if_neg h2]

theorem mustConvert_bijection_or_panic_witness :
    mustConvertConsistency 9 = .error ⟨"Unknown mongo Consistency level: %v", 9⟩ ∧
      mustConvertBatchType 3 = .error ⟨"Unknown mongo BatchType: %v", 3⟩ :=
  ⟨mustConvert_bijection_or_panic.2.2.2.2.1 9 (by decide),
    mustConvert_bijection_or_panic.2.2.2.2.2 3 (by decide)⟩

/-! ## The query adapter -/

section QueryAdapterTheorems

variable {σ Q V M : Type}

/-- C7: `Exec`, `Scan`, `ScanCAS`, `MapScan` and `MapScanCAS` of the wrapper call the
method of the same name of the underlying driver query with the same arguments and
return what it returned; afterwards the outside state is the driver's, with
`handleError` applied to it once, on the error returned; with a log of the hook's
invocations, each call adds one entry to the log, the error returned (nil included). -/
theorem query_forwards_and_reports_once (d : QueryDriver σ Q V M) (q : query σ Q) (s : σ)
    (dest : List V) (m : M) (log : List (Option GoError)) :
    (q.Exec d s =
        ((d.Exec q.mongoQuery s).1,
          q.session.handleError (d.Exec q.mongoQuery s).1 (d.Exec q.mongoQuery s).2) ∧
      q.Scan d dest s =
        ((d.Scan q.mongoQuery dest s).1,
          q.session.handleError (d.Scan q.mongoQuery dest s).1
            (d.Scan q.mongoQuery dest s).2) ∧
      q.ScanCAS d dest s =
        ((d.ScanCAS q.mongoQuery dest s).1,
          q.session.handleError (d.ScanCAS q.mongoQuery dest s).1.2
            (d.ScanCAS q.mongoQuery dest s).2) ∧
      q.MapScan d m s =
        ((d.MapScan q.mongoQuery m s).1,
          q.session.handleError (d.MapScan q.mongoQuery m s).1
            (d.MapScan q.mongoQuery m s).2) ∧
      q.MapScanCAS d m s =
        ((d.MapScanCAS q.mongoQuery m s).1,
          q.session.handleError (d.MapScanCAS q.mongoQuery m s).1.2
            (d.MapScanCAS q.mongoQuery m s).2)) ∧
    ((query.Exec d.logged ⟨q.session.logged, q.mongoQuery⟩ (s, log)).2.2 =
        log ++ [(d.Exec q.mongoQuery s).1] ∧
      (query.Scan d.logged ⟨q.session.logged, q.mongoQuery⟩ dest (s, log)).2.2 =
        log ++ [(d.Scan q.mongoQuery dest s).1] ∧
      (query.ScanCAS d.logged ⟨q.session.logged, q.mongoQuery⟩ dest (s, log)).2.2 =
        log ++ [(d.ScanCAS q.mongoQuery dest s).1.2] ∧
      (query.MapScan d.logged ⟨q.session.logged, q.mongoQuery⟩ m (s, log)).2.2 =
        log ++ [(d.MapScan q.mongoQuery m s).1] ∧
      (query.MapScanCAS d.logged ⟨q.session.logged, q.mongoQuery⟩ m (s, log)).2.2 =
        log ++ [(d.MapScanCAS q.mongoQuery m s).1.2]) :=
  ⟨⟨rfl, rfl, rfl, rfl, rfl⟩, ⟨rfl, rfl, rfl, rfl, rfl⟩⟩

theorem query_call_eq (d : QueryDriver σ Q V M) (q : query σ Q) (c : SetterCall V) (s : σ) :
    q.call d c s = (driverCall d q.mongoQuery c s).map fun s1 => (q, s1) := by
  cases c with
  | PageSize n => rfl
  | PageState b => rfl
  | Consistency c =>
    simp only [query.call, query.Consistency, driverCall, newQuery]
    cases mustConvertConsistency c <;> rfl
  | WithTimestamp t => rfl
  | Bind v => rfl

theorem query_chain_eq (d : QueryDriver σ Q V M) (q : query σ Q) (cs : List (SetterCall V))
    (s : σ) :
    q.chain d cs s = (driverChain d q.mongoQuery cs s).map fun s1 => (q, s1) := by
  induction cs generalizing s with
  | nil => rfl
  | cons c cs ih =>
    rw [query.chain, driverChain, query_call_eq]
    cases h : driverCall d q.mongoQuery c s with
    | error p => rfl
    | ok s1 => exact ih s1

/-- C8: each of `PageSize`, `PageState`, `Consistency`, `WithTimestamp` and `Bind` applies
the driver setter of the same name (`Consistency` on the level translated by
`mustConvertConsistency`) to the wrapper's driver query and returns a wrapper with the
same session and the same driver query; so a chain of such calls leaves the outside state
exactly as the same setters called in the same order on the driver query directly, and
ends with a wrapper of that same driver query. -/
theorem query_chain_preserves_settings (d : QueryDriver σ Q V M) (q : query σ Q) (s : σ) :
    (∀ n, q.PageSize d n s = (q, (d.PageSize q.mongoQuery n s).2)) ∧
    (∀ state, q.PageState d state s = (q, (d.PageState q.mongoQuery state s).2)) ∧
    (∀ c, q.Consistency d c s =
      (mustConvertConsistency c).map fun dc => (q, (d.Consistency q.mongoQuery dc s).2)) ∧
    (∀ t, q.WithTimestamp d t s = (q, (d.WithTimestamp q.mongoQuery t s).2)) ∧
    (∀ v, q.Bind d v s = (q, (d.Bind q.mongoQuery v s).2)) ∧
    (∀ calls : List (SetterCall V),
      q.chain d calls s = (driverChain d q.mongoQuery calls s).map fun s1 => (q, s1)) := by
  refine ⟨fun _ => rfl, fun _ => rfl, fun c => ?_, fun _ => rfl, fun _ => rfl,
    fun calls => query_chain_eq d q calls s⟩
  simp only [query.Consistency, newQuery]
  cases mustConvertConsistency c <;> rfl

end QueryAdapterTheorems

/-! ## Lemmas on `ConfigureMongoDBCluster` -/

theorem configureBasics_frame (cfg : MongoDB) (cluster : ClusterConfig) :
    configureBasics cfg cluster =
      { cluster with
        ProtoVersion := (configureBasics cfg cluster).ProtoVersion
        Port := (configureBasics cfg cluster).Port
        Authenticator := (configureBasics cfg cluster).Authenticator
        Keyspace := (configureBasics cfg cluster).Keyspace
        HostFilter := (configureBasics cfg cluster).HostFilter } := by
  simp only [configureBasics]
  split_ifs <;> rfl

theorem configureBasics_untouched (cfg : MongoDB) (cluster : ClusterConfig) :
    (configureBasics cfg cluster).SslOpts = cluster.SslOpts ∧
      (configureBasics cfg cluster).NumConns = cluster.NumConns ∧
      (configureBasics cfg cluster).Timeout = cluster.Timeout ∧
      (configureBasics cfg cluster).ConnectTimeout = cluster.ConnectTimeout ∧
      (configureBasics cfg cluster).Consistency = cluster.Consistency ∧
      (configureBasics cfg cluster).SerialConsistency = cluster.SerialConsistency ∧
      (configureBasics cfg cluster).DisableInitialHostLookup =
        cluster.DisableInitialHostLookup ∧
      (configureBasics cfg cluster).ReconnectionPolicy = cluster.ReconnectionPolicy ∧
      (configureBasics cfg cluster).PoolConfig.HostSelectionPolicy =
        cluster.PoolConfig.HostSelectionPolicy := by
  simp only [configureBasics]
  split_ifs <;> exact ⟨rfl, rfl, rfl, rfl, rfl, rfl, rfl, rfl, rfl⟩

theorem configureRest_SslOpts (env : Env) (cfg : MongoDB) (cluster : ClusterConfig) :
    (configureRest env cfg cluster).SslOpts = cluster.SslOpts := by
  simp only [configureRest]
  split_ifs <;> rfl

theorem configureRest_timeouts (env : Env) (cfg : MongoDB) (cluster : ClusterConfig) :
    (configureRest env cfg cluster).Timeout =
        (if cfg.ConnectTimeout > 0 then cfg.ConnectTimeout
          else 10 * Second * env.TimeoutMultiplier) ∧
      (configureRest env cfg cluster).ConnectTimeout =
        (if cfg.ConnectTimeout > 0 then cfg.ConnectTimeout
          else 10 * Second * env.TimeoutMultiplier) := by
  simp only [configureRest]
  split_ifs <;> exact ⟨rfl, rfl⟩

theorem Configure_of_enabled (env : Env) (cfg : MongoDB) (cluster : ClusterConfig) (tls : TLS)
    (h : cfg.TLS = some tls) (he : tls.Enabled = true) :
    ConfigureMongoDBCluster env cfg cluster =
      match (configureTLS env tls (configureBasics cfg cluster)).2 with
      | some err => ((configureTLS env tls (configureBasics cfg cluster)).1, some err)
      | none =>
        (configureRest env cfg (configureTLS env tls (configureBasics cfg cluster)).1, none) := by
  simp only [ConfigureMongoDBCluster, h, he, if_true]

theorem Configure_of_not_enabled (env : Env) (cfg : MongoDB) (cluster : ClusterConfig)
    (h : cfg.TLS = none ∨ ∃ tls, cfg.TLS = some tls ∧ tls.Enabled = false) :
    ConfigureMongoDBCluster env cfg cluster =
      (configureRest env cfg (configureBasics cfg cluster), none) := by
  rcases h with h | ⟨tls, h, he⟩
  · simp only [ConfigureMongoDBCluster, h]
  · simp [ConfigureMongoDBCluster, h, he]

theorem configureTLS_conflict (env : Env) (tls : TLS) (cluster : ClusterConfig)
    (h : (tls.CertData ≠ "" ∧ tls.CertFile ≠ "") ∨ (tls.KeyData ≠ "" ∧ tls.KeyFile ≠ "") ∨
      (tls.CaData ≠ "" ∧ tls.CaFile ≠ "")) :
    configureTLS env tls cluster =
      (cluster,
        some (if tls.CertData ≠ "" ∧ tls.CertFile ≠ "" then errCertDataOrFile
          else if tls.KeyData ≠ "" ∧ tls.KeyFile ≠ "" then errKeyDataOrFile
          else errCaDataOrFile)) := by
  unfold configureTLS
  by_cases h1 : tls.CertData ≠ "" ∧ tls.CertFile ≠ ""
  · rw [if_pos h1, if_pos h1]
  · rw [if_neg h1, if_neg h1]
    by_cases h2 : tls.KeyData ≠ "" ∧ tls.KeyFile ≠ ""
    · rw [if_pos h2, if_pos h2]
    · rw [if_neg h2, if_neg h2]
      have h3 : tls.CaData ≠ "" ∧ tls.CaFile ≠ "" := by
        rcases h with h | h | h
        · exact absurd h h1
        · exact absurd h h2
        · exact h
      rw [if_pos h3]

/-- The body of `configureTLS` after the three checks. -/
theorem configureTLS_no_conflict (env : Env) (tls : TLS) (cluster : ClusterConfig)
    (h1 : ¬(tls.CertData ≠ "" ∧ tls.CertFile ≠ ""))
    (h2 : ¬(tls.KeyData ≠ "" ∧ tls.KeyFile ≠ ""))
    (h3 : ¬(tls.CaData ≠ "" ∧ tls.CaFile ≠ "")) :
    configureTLS env tls cluster =
      match loadCertBytes env tls with
      | .error err =>
        ({ cluster with
            SslOpts := some
              { CaPath := tls.CaFile
                EnableHostVerification := tls.EnableHostVerification
                Config := env.NewTLSConfigForServer tls.ServerName tls.EnableHostVerification } },
          some err)
      | .ok certBytes =>
        match loadKeyBytes env tls with
        | .error err =>
          ({ cluster with
              SslOpts := some
                { CaPath := tls.CaFile
                  EnableHostVerification := tls.EnableHostVerification
                  Config :=
                    env.NewTLSConfigForServer tls.ServerName tls.EnableHostVerification } },
            some err)
        | .ok keyBytes =>
          match installKeyPair env certBytes keyBytes
              { CaPath := tls.CaFile
                EnableHostVerification := tls.EnableHostVerification
                Config :=
                  env.NewTLSConfigForServer tls.ServerName tls.EnableHostVerification } with
          | (opts, some err) => ({ cluster with SslOpts := some opts }, some err)
          | (opts, none) =>
            ({ cluster with SslOpts := some (installRootCAs env tls opts).1 },
              (installRootCAs env tls opts).2) := by
  unfold configureTLS
  rw [if_neg h1, if_neg h2, if_neg h3]

theorem loadCertBytes_error (env : Env) (tls : TLS) (err : GoError)
    (h : loadCertBytes env tls = .error err) : ∃ f e, err = .Errorf f e := by
  unfold loadCertBytes at h
  split_ifs at h
  · split at h
    · cases h; exact ⟨_, _, rfl⟩
    · cases h
  · split at h
    · cases h; exact ⟨_, _, rfl⟩
    · cases h

theorem loadKeyBytes_error (env : Env) (tls : TLS) (err : GoError)
    (h : loadKeyBytes env tls = .error err) : ∃ f e, err = .Errorf f e := by
  unfold loadKeyBytes at h
  split_ifs at h
  · split at h
    · cases h; exact ⟨_, _, rfl⟩
    · cases h
  · split at h
    · cases h; exact ⟨_, _, rfl⟩
    · cases h

theorem installKeyPair_error (env : Env) (cb kb : Bytes) (opts : SslOptions) (err : GoError)
    (h : (installKeyPair env cb kb opts).2 = some err) : ∃ f e, err = .Errorf f e := by
  unfold installKeyPair at h
  split_ifs at h
  · split at h
    · cases h; exact ⟨_, _, rfl⟩
    · cases h

theorem installRootCAs_error (env : Env) (tls : TLS) (opts : SslOptions) (err : GoError)
    (h : (installRootCAs env tls opts).2 = some err) :
    (∃ f e, err = .Errorf f e) ∨ err = .New "failed to load decoded CA Cert as PEM" := by
  unfold installRootCAs at h
  split_ifs at h
  · split at h
    · cases h; exact Or.inl ⟨_, _, rfl⟩
    · simp only at h
      split_ifs at h
      · cases h; exact Or.inr rfl

theorem not_mutex_of_shape (err : GoError)
    (h : (∃ f e, err = .Errorf f e) ∨ err = .New "failed to load decoded CA Cert as PEM") :
    ¬IsMutualExclusivityError (some err) := by
  rcases h with ⟨f, e, rfl⟩ | rfl
  · intro hm
    rcases hm with hm | hm | hm <;> cases hm
  · decide

theorem configureTLS_error_shape (env : Env) (tls : TLS) (cluster : ClusterConfig)
    (h1 : ¬(tls.CertData ≠ "" ∧ tls.CertFile ≠ ""))
    (h2 : ¬(tls.KeyData ≠ "" ∧ tls.KeyFile ≠ ""))
    (h3 : ¬(tls.CaData ≠ "" ∧ tls.CaFile ≠ "")) (err : GoError)
    (h : (configureTLS env tls cluster).2 = some err) :
    (∃ f e, err = .Errorf f e) ∨ err = .New "failed to load decoded CA Cert as PEM" := by
  rw [configureTLS_no_conflict env tls cluster h1 h2 h3] at h
  cases hc : loadCertBytes env tls with
  | error e =>
    rw [hc] at h
    cases h
    exact Or.inl (loadCertBytes_error env tls _ hc)
  | ok cb =>
    rw [hc] at h
    cases hk : loadKeyBytes env tls with
    | error e =>
      rw [hk] at h
      cases h
      exact Or.inl (loadKeyBytes_error env tls _ hk)
    | ok kb =>
      rw [hk] at h
      simp only at h
      rcases hp : installKeyPair env cb kb
        { CaPath := tls.CaFile
          EnableHostVerification := tls.EnableHostVerification
          Config := env.NewTLSConfigForServer tls.ServerName tls.EnableHostVerification }
        with ⟨opts, _ | e⟩
      · rw [hp] at h
        exact installRootCAs_error env tls opts err h
      · rw [hp] at h
        cases h
        exact Or.inl (installKeyPair_error env cb kb _ _ (by rw [hp]))


theorem Configure_enabled_error (env : Env) (cfg : MongoDB) (cluster : ClusterConfig)
    (tls : TLS) (h : cfg.TLS = some tls) (he : tls.Enabled = true) :
    (ConfigureMongoDBCluster env cfg cluster).2 =
      (configureTLS env tls (configureBasics cfg cluster)).2 := by
  rw [Configure_of_enabled env cfg cluster tls h he]
  cases (configureTLS env tls (configureBasics cfg cluster)).2 <;> rfl

theorem Configure_enabled_SslOpts (env : Env) (cfg : MongoDB) (cluster : ClusterConfig)
    (tls : TLS) (h : cfg.TLS = some tls) (he : tls.Enabled = true) :
    (ConfigureMongoDBCluster env cfg cluster).1.SslOpts =
      (configureTLS env tls (configureBasics cfg cluster)).1.SslOpts := by
  rw [Configure_of_enabled env cfg cluster tls h he]
  cases (configureTLS env tls (configureBasics cfg cluster)).2
  · exact configureRest_SslOpts env cfg _
  · rfl

theorem Configure_enabled_of_error (env : Env) (cfg : MongoDB) (cluster : ClusterConfig)
    (tls : TLS) (h : cfg.TLS = some tls) (he : tls.Enabled = true) (c : ClusterConfig)
    (err : GoError) (hr : configureTLS env tls (configureBasics cfg cluster) = (c, some err)) :
    ConfigureMongoDBCluster env cfg cluster = (c, some err) := by
  rw [Configure_of_enabled env cfg cluster tls h he, hr]

theorem Configure_conflict (env : Env) (cfg : MongoDB) (cluster : ClusterConfig) (tls : TLS)
    (h : cfg.TLS = some tls) (he : tls.Enabled = true)
    (hc : (tls.CertData ≠ "" ∧ tls.CertFile ≠ "") ∨ (tls.KeyData ≠ "" ∧ tls.KeyFile ≠ "") ∨
      (tls.CaData ≠ "" ∧ tls.CaFile ≠ "")) :
    ConfigureMongoDBCluster env cfg cluster =
      (configureBasics cfg cluster,
        some (if tls.CertData ≠ "" ∧ tls.CertFile ≠ "" then errCertDataOrFile
          else if tls.KeyData ≠ "" ∧ tls.KeyFile ≠ "" then errKeyDataOrFile
          else errCaDataOrFile)) :=
  Configure_enabled_of_error env cfg cluster tls h he _ _
    (configureTLS_conflict env tls (configureBasics cfg cluster) hc)

theorem not_mutex_none : ¬IsMutualExclusivityError none := by decide

theorem Configure_mutex_inv (env : Env) (cfg : MongoDB) (cluster : ClusterConfig)
    (hm : IsMutualExclusivityError (ConfigureMongoDBCluster env cfg cluster).2) :
    ∃ tls, cfg.TLS = some tls ∧ tls.Enabled = true ∧
      ((tls.CertData ≠ "" ∧ tls.CertFile ≠ "") ∨ (tls.KeyData ≠ "" ∧ tls.KeyFile ≠ "") ∨
        (tls.CaData ≠ "" ∧ tls.CaFile ≠ "")) := by
  cases h : cfg.TLS with
  | none =>
    rw [Configure_of_not_enabled env cfg cluster (Or.inl h)] at hm
    exact absurd hm not_mutex_none
  | some tls =>
    cases he : tls.Enabled with
    | false =>
      rw [Configure_of_not_enabled env cfg cluster (Or.inr ⟨tls, h, he⟩)] at hm
      exact absurd hm not_mutex_none
    | true =>
      refine ⟨tls, rfl, he, ?_⟩
      by_contra hc
      simp only [not_or] at hc
      obtain ⟨h1, h2, h3⟩ := hc
      rw [Configure_enabled_error env cfg cluster tls h he] at hm
      cases hx : (configureTLS env tls (configureBasics cfg cluster)).2 with
      | none => rw [hx] at hm; exact absurd hm not_mutex_none
      | some err =>
        rw [hx] at hm
        exact not_mutex_of_shape err
          (configureTLS_error_shape env tls _ h1 h2 h3 err hx) hm

theorem first_conflict_is_mutex (tls : TLS) :
    IsMutualExclusivityError
      (some (if tls.CertData ≠ "" ∧ tls.CertFile ≠ "" then errCertDataOrFile
        else if tls.KeyData ≠ "" ∧ tls.KeyFile ≠ "" then errKeyDataOrFile
        else errCaDataOrFile)) := by
  unfold IsMutualExclusivityError
  split_ifs
  · exact Or.inl rfl
  · exact Or.inr (Or.inl rfl)
  · exact Or.inr (Or.inr rfl)

theorem Configure_success (env : Env) (cfg : MongoDB) (cluster : ClusterConfig)
    (h : (ConfigureMongoDBCluster env cfg cluster).2 = none) :
    ∃ c, (ConfigureMongoDBCluster env cfg cluster).1 = configureRest env cfg c := by
  unfold ConfigureMongoDBCluster at h ⊢
  simp only at h ⊢
  split at h
  · cases h
  · exact ⟨_, rfl⟩

theorem installRootCAs_Certificates (env : Env) (tls : TLS) (opts : SslOptions) :
    (installRootCAs env tls opts).1.Config.Certificates = opts.Config.Certificates := by
  unfold installRootCAs
  split_ifs
  · split
    · rfl
    · simp only
      split_ifs <;> rfl
  · rfl

theorem loadCertBytes_inline (env : Env) (tls : TLS) (hf : tls.CertFile = "")
    (hd : tls.CertData ≠ "") :
    loadCertBytes env tls =
      match env.DecodeString tls.CertData with
      | .error err => .error (.Errorf "client certificate could not be decoded: %w" err)
      | .ok certBytes => .ok certBytes := by
  unfold loadCertBytes
  rw [if_neg (by simp [hf]), if_pos hd]

theorem loadKeyBytes_inline (env : Env) (tls : TLS) (hf : tls.KeyFile = "")
    (hd : tls.KeyData ≠ "") :
    loadKeyBytes env tls =
      match env.DecodeString tls.KeyData with
      | .error err =>
        .error (.Errorf "client certificate private key could not be decoded: %w" err)
      | .ok keyBytes => .ok keyBytes := by
  unfold loadKeyBytes
  rw [if_neg (by simp [hf]), if_pos hd]


/-! ## `ConfigureMongoDBCluster` -/

/-- C1, as stated, fails: with TLS present but not enabled, a configuration that gives the
certificate both inline and as a file is configured without any error. -/
theorem both_cert_forms_tls_off_no_error :
    (∃ tls, cfgTLSOffBothCertForms.TLS = some tls ∧ tls.CertData ≠ "" ∧ tls.CertFile ≠ "") ∧
      (ConfigureMongoDBCluster exampleEnv cfgTLSOffBothCertForms {}).2 = none :=
  ⟨⟨_, rfl, by decide, by decide⟩, by decide⟩

/-- C1, amended: when TLS is configured and enabled and at least one of the pairs
(certData, certFile), (keyData, keyFile), (caData, caFile) has both members non-empty,
`ConfigureMongoDBCluster` fails with the mutual-exclusivity error of the first such pair
in the order certificate, key, certificate authority. -/
theorem both_forms_tls_enabled_error (env : Env) (cfg : MongoDB) (cluster : ClusterConfig)
    (tls : TLS) (h : cfg.TLS = some tls) (he : tls.Enabled = true)
    (hc : (tls.CertData ≠ "" ∧ tls.CertFile ≠ "") ∨ (tls.KeyData ≠ "" ∧ tls.KeyFile ≠ "") ∨
      (tls.CaData ≠ "" ∧ tls.CaFile ≠ "")) :
    (ConfigureMongoDBCluster env cfg cluster).2 =
      some (if tls.CertData ≠ "" ∧ tls.CertFile ≠ "" then errCertDataOrFile
        else if tls.KeyData ≠ "" ∧ tls.KeyFile ≠ "" then errKeyDataOrFile
        else errCaDataOrFile) := by
  rw [Configure_conflict env cfg cluster tls h he hc]

theorem both_forms_tls_enabled_error_witness :
    (ConfigureMongoDBCluster exampleEnv cfgBothKeyForms {}).2 = some errKeyDataOrFile :=
  both_forms_tls_enabled_error exampleEnv cfgBothKeyForms {}
    { Enabled := true, KeyData := "QQ==", KeyFile := "/etc/temporal/client.key" } rfl rfl
    (Or.inr (Or.inl (by decide)))

/-- C2: when `ConfigureMongoDBCluster` returns a mutual-exclusivity error, the cluster
differs from the one passed in at most in `ProtoVersion`, `Port`, `Authenticator`,
`Keyspace` and `HostFilter`; `SslOpts`, `NumConns`, `Timeout`, `ConnectTimeout`,
`Consistency`, `SerialConsistency`, `DisableInitialHostLookup`, `ReconnectionPolicy` and
`PoolConfig.HostSelectionPolicy` have the values they had before the call. -/
theorem mutual_exclusivity_error_frame (env : Env) (cfg : MongoDB) (cluster : ClusterConfig)
    (hm : IsMutualExclusivityError (ConfigureMongoDBCluster env cfg cluster).2) :
    (ConfigureMongoDBCluster env cfg cluster).1 =
        { cluster with
          ProtoVersion := (ConfigureMongoDBCluster env cfg cluster).1.ProtoVersion
          Port := (ConfigureMongoDBCluster env cfg cluster).1.Port
          Authenticator := (ConfigureMongoDBCluster env cfg cluster).1.Authenticator
          Keyspace := (ConfigureMongoDBCluster env cfg cluster).1.Keyspace
          HostFilter := (ConfigureMongoDBCluster env cfg cluster).1.HostFilter } ∧
      (ConfigureMongoDBCluster env cfg cluster).1.SslOpts = cluster.SslOpts ∧
      (ConfigureMongoDBCluster env cfg cluster).1.NumConns = cluster.NumConns ∧
      (ConfigureMongoDBCluster env cfg cluster).1.Timeout = cluster.Timeout ∧
      (ConfigureMongoDBCluster env cfg cluster).1.ConnectTimeout = cluster.ConnectTimeout ∧
      (ConfigureMongoDBCluster env cfg cluster).1.Consistency = cluster.Consistency ∧
      (ConfigureMongoDBCluster env cfg cluster).1.SerialConsistency =
        cluster.SerialConsistency ∧
      (ConfigureMongoDBCluster env cfg cluster).1.DisableInitialHostLookup =
        cluster.DisableInitialHostLookup ∧
      (ConfigureMongoDBCluster env cfg cluster).1.ReconnectionPolicy =
        cluster.ReconnectionPolicy ∧
      (ConfigureMongoDBCluster env cfg cluster).1.PoolConfig.HostSelectionPolicy =
        cluster.PoolConfig.HostSelectionPolicy := by
  obtain ⟨tls, h, he, hc⟩ := Configure_mutex_inv env cfg cluster hm
  have hf := configureBasics_frame cfg cluster
  rw [Configure_conflict env cfg cluster tls h he hc]
  exact ⟨hf, configureBasics_untouched cfg cluster⟩

theorem mutual_exclusivity_error_frame_witness :
    (ConfigureMongoDBCluster exampleEnv cfgBothCaForms {}).1.SslOpts =
      ({} : ClusterConfig).SslOpts :=
  (mutual_exclusivity_error_frame exampleEnv cfgBothCaForms {} (by decide)).2.1


/-- C5: when `ConfigureMongoDBCluster` succeeds, `Timeout` and `ConnectTimeout` of the
cluster are both ten seconds times `debug.TimeoutMultiplier` if `cfg.ConnectTimeout` is
not greater than zero, and both `cfg.ConnectTimeout` if it is. -/
theorem timeouts_default_or_configured (env : Env) (cfg : MongoDB) (cluster : ClusterConfig)
    (hs : (ConfigureMongoDBCluster env cfg cluster).2 = none) :
    (¬cfg.ConnectTimeout > 0 →
        (ConfigureMongoDBCluster env cfg cluster).1.Timeout =
            10 * Second * env.TimeoutMultiplier ∧
          (ConfigureMongoDBCluster env cfg cluster).1.ConnectTimeout =
            10 * Second * env.TimeoutMultiplier) ∧
      (cfg.ConnectTimeout > 0 →
        (ConfigureMongoDBCluster env cfg cluster).1.Timeout = cfg.ConnectTimeout ∧
          (ConfigureMongoDBCluster env cfg cluster).1.ConnectTimeout = cfg.ConnectTimeout) := by
  obtain ⟨c, hc⟩ := Configure_success env cfg cluster hs
  have ht := configureRest_timeouts env cfg c
  rw [hc]
  constructor
  · intro h
    rw [if_neg h] at ht
    exact ht
  · intro h
    rw [if_pos h] at ht
    exact ht

theorem timeouts_default_or_configured_witness :
    (ConfigureMongoDBCluster exampleEnv cfgInlineKeyPair {}).1.Timeout =
        10 * Second * exampleEnv.TimeoutMultiplier ∧
      (ConfigureMongoDBCluster exampleEnv cfgInlineKeyPair {}).1.ConnectTimeout =
        10 * Second * exampleEnv.TimeoutMultiplier :=
  (timeouts_default_or_configured exampleEnv cfgInlineKeyPair {} (by decide)).1 (by decide)

/-- C6, as stated, fails on two configurations with TLS enabled, no certificate or key
file and both inline forms set: with an inline certificate that is not base64 and the
certificate authority given in both forms, the error is the mutual-exclusivity error of
the certificate authority and not a decoding error; with an inline key that is not base64
next to an inline certificate that is not base64 either, the error is the one of the
certificate and not the one of the key. -/
theorem inline_decoding_error_preempted :
    (exampleEnv.DecodeString "!" = .error (.Lib "illegal base64 data") ∧
      (ConfigureMongoDBCluster exampleEnv cfgBadCertBothCaForms {}).2 =
        some errCaDataOrFile) ∧
      (ConfigureMongoDBCluster exampleEnv cfgBadCertBadKey {}).2 =
        some (.Errorf "client certificate could not be decoded: %w"
          (.Lib "illegal base64 data")) := by
  decide

/-- C6, amended: for a configuration with TLS enabled, certFile and keyFile empty,
certData and keyData set, and caData and caFile not both set: if certData does not decode,
`ConfigureMongoDBCluster` fails with "client certificate could not be decoded" wrapping
the decoder's error; if certData decodes and keyData does not, it fails with "client
certificate private key could not be decoded" wrapping the decoder's error; in both cases
`SslOpts` is the freshly built object, with no client certificate assigned; and if both
decode, to a non-empty certificate, key-pair construction is called on exactly the two
decodings: its error is returned wrapped, and its certificate is the one installed. -/
theorem inline_key_pair_decoded (env : Env) (cfg : MongoDB) (cluster : ClusterConfig)
    (tls : TLS) (h : cfg.TLS = some tls) (he : tls.Enabled = true)
    (hcf : tls.CertFile = "") (hkf : tls.KeyFile = "")
    (hcd : tls.CertData ≠ "") (hkd : tls.KeyData ≠ "")
    (hca : ¬(tls.CaData ≠ "" ∧ tls.CaFile ≠ "")) :
    (∀ e, env.DecodeString tls.CertData = .error e →
      ConfigureMongoDBCluster env cfg cluster =
        ({ configureBasics cfg cluster with SslOpts := some (newSslOptions env tls) },
          some (.Errorf "client certificate could not be decoded: %w" e))) ∧
    (∀ cb e, env.DecodeString tls.CertData = .ok cb →
      env.DecodeString tls.KeyData = .error e →
      ConfigureMongoDBCluster env cfg cluster =
        ({ configureBasics cfg cluster with SslOpts := some (newSslOptions env tls) },
          some (.Errorf "client certificate private key could not be decoded: %w" e))) ∧
    (∀ cb kb, env.DecodeString tls.CertData = .ok cb →
      env.DecodeString tls.KeyData = .ok kb → cb.length > 0 →
      (∀ e, env.X509KeyPair cb kb = .error e →
        ConfigureMongoDBCluster env cfg cluster =
          ({ configureBasics cfg cluster with SslOpts := some (newSslOptions env tls) },
            some (.Errorf "unable to generate x509 key pair: %w" e))) ∧
      (∀ cert, env.X509KeyPair cb kb = .ok cert →
        ∃ opts, (ConfigureMongoDBCluster env cfg cluster).1.SslOpts = some opts ∧
          opts.Config.Certificates = [cert])) := by
  have h1 : ¬(tls.CertData ≠ "" ∧ tls.CertFile ≠ "") := fun hx => hx.2 hcf
  have h2 : ¬(tls.KeyData ≠ "" ∧ tls.KeyFile ≠ "") := fun hx => hx.2 hkf
  have hT := configureTLS_no_conflict env tls (configureBasics cfg cluster) h1 h2 hca
  rw [loadCertBytes_inline env tls hcf hcd, loadKeyBytes_inline env tls hkf hkd] at hT
  refine ⟨?_, ?_, ?_⟩
  · intro e hd
    rw [hd] at hT
    exact Configure_enabled_of_error env cfg cluster tls h he _ _ hT
  · intro cb e hd hk
    rw [hd, hk] at hT
    exact Configure_enabled_of_error env cfg cluster tls h he _ _ hT
  · intro cb kb hd hk hlen
    rw [hd, hk] at hT
    simp only [installKeyPair, if_pos hlen] at hT
    constructor
    · intro e hx
      rw [hx] at hT
      exact Configure_enabled_of_error env cfg cluster tls h he _ _ hT
    · intro cert hx
      rw [hx] at hT
      rw [Configure_enabled_SslOpts env cfg cluster tls h he, hT]
      exact ⟨_, rfl, installRootCAs_Certificates env tls _⟩

theorem inline_key_pair_decoded_witness :
    ConfigureMongoDBCluster exampleEnv cfgBadCert {} =
      ({ configureBasics cfgBadCert {} with
          SslOpts := some (newSslOptions exampleEnv
            { Enabled := true, CertData := "!", KeyData := "QQ==" }) },
        some (.Errorf "client certificate could not be decoded: %w"
          (.Lib "illegal base64 data"))) :=
  (inline_key_pair_decoded exampleEnv cfgBadCert {}
    { Enabled := true, CertData := "!", KeyData := "QQ==" } rfl rfl rfl rfl
    (by decide) (by decide) (by decide)).1 _ (by decide)

/-- C9: `ConfigureMongoDBCluster` returns a mutual-exclusivity error exactly when
`cfg.TLS` is non-nil and enabled and one of the pairs (certData, certFile), (keyData,
keyFile), (caData, caFile) has both members non-empty; the error is then the one of the
first such pair in the order certificate, key, certificate authority; and when TLS is nil
or not enabled no such error is returned and `cluster.SslOpts` keeps its value. -/
theorem mutual_exclusivity_error_iff (env : Env) (cfg : MongoDB) (cluster : ClusterConfig) :
    (IsMutualExclusivityError (ConfigureMongoDBCluster env cfg cluster).2 ↔
      ∃ tls, cfg.TLS = some tls ∧ tls.Enabled = true ∧
        ((tls.CertData ≠ "" ∧ tls.CertFile ≠ "") ∨ (tls.KeyData ≠ "" ∧ tls.KeyFile ≠ "") ∨
          (tls.CaData ≠ "" ∧ tls.CaFile ≠ ""))) ∧
    (∀ tls, cfg.TLS = some tls → tls.Enabled = true →
      ((tls.CertData ≠ "" ∧ tls.CertFile ≠ "") →
        (ConfigureMongoDBCluster env cfg cluster).2 = some errCertDataOrFile) ∧
      (¬(tls.CertData ≠ "" ∧ tls.CertFile ≠ "") → (tls.KeyData ≠ "" ∧ tls.KeyFile ≠ "") →
        (ConfigureMongoDBCluster env cfg cluster).2 = some errKeyDataOrFile) ∧
      (¬(tls.CertData ≠ "" ∧ tls.CertFile ≠ "") → ¬(tls.KeyData ≠ "" ∧ tls.KeyFile ≠ "") →
        (tls.CaData ≠ "" ∧ tls.CaFile ≠ "") →
        (ConfigureMongoDBCluster env cfg cluster).2 = some errCaDataOrFile)) ∧
    ((cfg.TLS = none ∨ ∃ tls, cfg.TLS = some tls ∧ tls.Enabled = false) →
      ¬IsMutualExclusivityError (ConfigureMongoDBCluster env cfg cluster).2 ∧
        (ConfigureMongoDBCluster env cfg cluster).1.SslOpts = cluster.SslOpts) := by
  refine ⟨⟨Configure_mutex_inv env cfg cluster, ?_⟩, ?_, ?_⟩
  · rintro ⟨tls, h, he, hc⟩
    rw [Configure_conflict env cfg cluster tls h he hc]
    exact first_conflict_is_mutex tls
  · intro tls h he
    refine ⟨fun h1 => ?_, fun h1 h2 => ?_, fun h1 h2 h3 => ?_⟩
    · rw [Configure_conflict env cfg cluster tls h he (Or.inl h1), if_pos h1]
    · rw [Configure_conflict env cfg cluster tls h he (Or.inr (Or.inl h2)), if_neg h1,
        if_pos h2]
    · rw [Configure_conflict env cfg cluster tls h he (Or.inr (Or.inr h3)), if_neg h1,
        if_neg h2]
  · intro h
    rw [Configure_of_not_enabled env cfg cluster h]
    refine ⟨not_mutex_none, ?_⟩
    show (configureRest env cfg (configureBasics cfg cluster)).SslOpts = cluster.SslOpts
    rw [configureRest_SslOpts]
    exact (configureBasics_untouched cfg cluster).1

theorem mutual_exclusivity_error_iff_witness :
    (¬IsMutualExclusivityError
          (ConfigureMongoDBCluster exampleEnv cfgTLSOffBothCertForms {}).2 ∧
        (ConfigureMongoDBCluster exampleEnv cfgTLSOffBothCertForms {}).1.SslOpts =
          ({} : ClusterConfig).SslOpts) ∧
      IsMutualExclusivityError (ConfigureMongoDBCluster exampleEnv cfgBothKeyForms {}).2 ∧
      (ConfigureMongoDBCluster exampleEnv cfgBothKeyForms {}).2 = some errKeyDataOrFile :=
  ⟨(mutual_exclusivity_error_iff exampleEnv cfgTLSOffBothCertForms {}).2.2
      (Or.inr ⟨_, rfl, rfl⟩),
    (mutual_exclusivity_error_iff exampleEnv cfgBothKeyForms {}).1.2
      ⟨_, rfl, rfl, Or.inr (Or.inl (by decide))⟩,
    ((mutual_exclusivity_error_iff exampleEnv cfgBothKeyForms {}).2.1 _ rfl rfl).2.1
      (by decide) (by decide)⟩

end Mongo
